import Mathlib

/-!
Verification of the RTM3004 oscilloscope driver (src/RTM3004.py).

The development is a shallow embedding of the driver code.  It has two
layers, matching the two layers of the Python class:

* the string-level command/query layer (`ask`, `identify`, `reset`,
  `wait`, `getMeasurementResult`, `checkClipping`): the instrument side
  is abstracted as a `Transport` (one response string per query) or,
  for the polling loop, as a stream of responses indexed by attempt
  number;

* the auto-ranging layer (`fixClipping`, `fixMathClipping` and their
  command/applied-scale traces): the instrument is abstracted as a
  `ScopeSim`, giving for every commanded volts-per-division value the
  scale actually applied (`quantize`, which also absorbs the driver
  side rounding done by the percent-style format string of
  `setVerticalScale`), and for every applied scale whether the
  peak-to-peak measurement saturates (`clips`).  Numeric values are
  modelled as rationals; the literal 1.25 of the source is exact in
  binary floating point, so the multiplication step is faithfully
  represented.  The string round trip of `getVerticalScale` (strip the
  trailing line terminator, parse the number) is abstracted as reading
  the applied scale directly.

The unbounded while-loops of the source are embedded as fuel-indexed
recursions returning `Option`: `none` means the loop had not finished
within the given number of iterations, so termination statements are
existential over the fuel.
-/

namespace RTM3004

/-- Abstract synchronous transport, as used by `ask` (RTM3004.py line 63):
for each query string it yields the raw response string, including any
line terminator the instrument appends. -/
structure Transport where
  query : String → String

/-- Embedding of `ask` (RTM3004.py lines 54-64): it forwards the message
to the transport and returns the raw response with no validation of any
kind. -/
def ask (t : Transport) (message : String) : String :=
  t.query message

/-- Embedding of `identify` (RTM3004.py lines 66-75). -/
def identify (t : Transport) : String :=
  ask t ("*IDN?")

/-- Embedding of `getMeasurementResult` (RTM3004.py lines 833-842): query
the measurement result of one measurement slot. -/
def getMeasurementResult (t : Transport) (index : ℕ) : String :=
  ask t ("MEAS" ++ toString index ++ ":RES?")

/-- Overflow sentinel literal compared against in `checkClipping`
(RTM3004.py line 267): the instrument invalid/overflow value, followed by
the line terminator that the raw response carries. -/
def overflowSentinel : String :=
  "9.91E+37\n"

/-- Embedding of `checkClipping` (RTM3004.py lines 258-268): boolean
equality test of the raw measurement-result text against the overflow
sentinel. -/
def checkClipping (t : Transport) (index : ℕ) : Bool :=
  getMeasurementResult t index == overflowSentinel

/-- Completion polling loop `wait` (RTM3004.py lines 88-101), embedded
over the stream of raw responses to the repeated `*OPC?` queries:
`resp k` is the raw response to the k-th query.  The source compares the
response against the two-character literal of the digit one followed by
the line terminator, breaks on a match and sleeps `dt` before the next
attempt otherwise.  The embedding is fuel-indexed: `wait resp fuel k`
polls from attempt `k` on, returning the index of the succeeding attempt,
or `none` if no attempt within the fuel succeeded. -/
def wait (resp : ℕ → String) : ℕ → ℕ → Option ℕ
  | 0, _ => none
  | fuel+1, k => if resp k == "1\n" then some k else wait resp fuel (k+1)

/-- Transport delivery of instrument-level replies: the instrument
reports some text and the transport delivers it suffixed with the line
terminator (spec section 6; visible in the source in the sentinel of
line 267 and the strip of line 286). -/
def delivered (resp : ℕ → String) : ℕ → String :=
  fun k => resp k ++ "\n"

/-- Wire-level operations issued by the driver, used to state sequencing
properties of the constructor. -/
inductive Op where
  | openSession : Op
  | setLocalTimeout : ℕ → Op
  | wireWrite : String → Op
  | wireQuery : String → Op
deriving DecidableEq

/-- Operations performed by `write` (RTM3004.py lines 41-52): one wire
write of the message (the settling sleep has no wire effect). -/
def writeOps (message : String) : List Op :=
  [Op.wireWrite message]

/-- Operations performed by `reset` (RTM3004.py lines 77-86): a single
write of the reset command. -/
def resetOps : List Op :=
  writeOps ("*RST")

/-- Operations performed by the constructor (RTM3004.py lines 19-39), in
order: open the session (line 31), set the local pyvisa timeout
attribute (line 32, not a wire command), initialize host-side attributes
(no wire effect), then call `reset` (line 38). -/
def initOps : List Op :=
  [Op.openSession, Op.setLocalTimeout 60000] ++ resetOps

/-- Predicate selecting the operations that reach the instrument as SCPI
traffic (writes and queries). -/
def isWireCmd : Op → Bool
  | Op.wireWrite _ => true
  | Op.wireQuery _ => true
  | _ => false

/-- Abstract instrument model for the auto-ranging loops.  `quantize`
maps a commanded volts-per-division value to the scale the instrument
actually applies (covering both instrument-side snapping to supported
steps and the driver-side rounding of the formatted command string);
`clips` tells whether the peak-to-peak measurement at a given applied
scale saturates, i.e. whether the slot would report the overflow
sentinel of `checkClipping`. -/
structure ScopeSim where
  quantize : ℚ → ℚ
  clips : ℚ → Bool

/-- Reading back the vertical scale (`getVerticalScale`, RTM3004.py
line 210, consumed at line 285 with the terminator stripped and the
number parsed at line 286): the instrument reports the applied scale. -/
def getVerticalScaleSim (st : ℚ) : ℚ :=
  st

/-- Applying a commanded vertical scale (`setVerticalScale`, RTM3004.py
line 199): the new applied scale is the instrument coercion of the
commanded value. -/
def setVerticalScaleSim (sim : ScopeSim) (div : ℚ) : ℚ :=
  sim.quantize div

/-- Clipping test at the current applied scale (`checkClipping` as seen
through the measurement slot configured for the channel). -/
def checkClippingSim (sim : ScopeSim) (st : ℚ) : Bool :=
  sim.clips st

/-- Loop guard of `fixClipping` (RTM3004.py line 284). -/
def fixClippingDetect (sim : ScopeSim) (st : ℚ) : Bool :=
  checkClippingSim sim st

/-- Scale-update computation of `fixClipping` (RTM3004.py line 286):
one quarter more than the value just read back. -/
def fixClippingNextScale (r : ℚ) : ℚ :=
  (1.25 : ℚ) * r

/-- Loop guard of `fixMathClipping` (RTM3004.py line 305). -/
def fixMathClippingDetect (sim : ScopeSim) (st : ℚ) : Bool :=
  checkClippingSim sim st

/-- Scale-update computation of `fixMathClipping` (RTM3004.py
line 307). -/
def fixMathClippingNextScale (r : ℚ) : ℚ :=
  (1.25 : ℚ) * r

/-- Body of the `fixClipping` while-loop (RTM3004.py lines 284-289),
fuel-indexed.  State `st` is the currently applied scale, `ins` the
Python variable `inscale`.  Each iteration reads the applied scale back,
multiplies it by 1.25, commands the product and continues at the
resulting applied scale; on loop exit the current `inscale` is the
returned value (line 290). -/
def fixClippingGo (sim : ScopeSim) : ℕ → ℚ → ℚ → Option ℚ
  | 0, _, _ => none
  | fuel+1, st, ins =>
    if fixClippingDetect sim st then
      let ins2 := fixClippingNextScale (getVerticalScaleSim st)
      fixClippingGo sim fuel (setVerticalScaleSim sim ins2) ins2
    else some ins

/-- Embedding of `fixClipping` (RTM3004.py lines 270-290): command the
caller-supplied starting scale, initialise `inscale` to that same
commanded value (line 283), then run the correction loop.  `none` means
the loop had not terminated within `fuel` iterations. -/
def fixClipping (sim : ScopeSim) (fuel : ℕ) (scale : ℚ) : Option ℚ :=
  fixClippingGo sim fuel (setVerticalScaleSim sim scale) scale

/-- Trace of the scale values commanded to the instrument during a
`fixClipping` run (the `div` arguments passed to `setVerticalScale` at
lines 281 and 287), truncated at `fuel` loop iterations. -/
def commandedTraceGo (sim : ScopeSim) : ℕ → ℚ → List ℚ
  | 0, _ => []
  | fuel+1, st =>
    if fixClippingDetect sim st then
      let c := fixClippingNextScale (getVerticalScaleSim st)
      c :: commandedTraceGo sim fuel (setVerticalScaleSim sim c)
    else []

/-- Commanded-scale trace of a full `fixClipping` run: the starting
scale followed by the in-loop commands. -/
def commandedTrace (sim : ScopeSim) (fuel : ℕ) (scale : ℚ) : List ℚ :=
  scale :: commandedTraceGo sim fuel (setVerticalScaleSim sim scale)

/-- Trace of the scale values actually applied to the channel during a
`fixClipping` run (the instrument state after each `setVerticalScale`),
truncated at `fuel` loop iterations. -/
def appliedTraceGo (sim : ScopeSim) : ℕ → ℚ → List ℚ
  | 0, _ => []
  | fuel+1, st =>
    if fixClippingDetect sim st then
      let st2 := setVerticalScaleSim sim (fixClippingNextScale (getVerticalScaleSim st))
      st2 :: appliedTraceGo sim fuel st2
    else []

/-- Applied-scale trace of a full `fixClipping` run: the scale applied
in response to the starting command, followed by the scales applied by
the in-loop commands. -/
def appliedTrace (sim : ScopeSim) (fuel : ℕ) (scale : ℚ) : List ℚ :=
  setVerticalScaleSim sim scale :: appliedTraceGo sim fuel (setVerticalScaleSim sim scale)

/-- Python runtime errors relevant to the embedded fragment. -/
inductive PyErr where
  | typeError : String → PyErr
deriving DecidableEq

/-- Python keyword-call binding check: a call binds only if every
keyword argument names a parameter of the callee; otherwise the call
raises a TypeError for an unexpected keyword argument. -/
def acceptsKwargs (params : List String) (kwargs : List String) : Bool :=
  kwargs.all (fun k => params.contains k)

/-- Parameter names of `setMathScale` (RTM3004.py line 1394, `self`
excluded as it is bound by the method call). -/
def setMathScaleParams : List String :=
  ["index", "scale"]

/-- Keyword-argument names used by the corrective `setMathScale` call
inside the `fixMathClipping` loop (RTM3004.py line 308). -/
def fixMathClippingCallKwargs : List String :=
  ["index", "div"]

/-- Body of the `fixMathClipping` while-loop (RTM3004.py lines 305-310),
fuel-indexed over the applied math scale.  Each iteration reads the math
scale back, multiplies by 1.25 and then evaluates the call
`setMathScale(index=channel, div=inscale)`; under Python call semantics
that call binds only if its keyword names are parameters of
`setMathScale`, and raises a TypeError otherwise.  The function body has
no return statement, so normal completion yields the Python value None,
embedded as `Except.ok` of the unit value. -/
def fixMathClippingGo (sim : ScopeSim) : ℕ → ℚ → Option (Except PyErr Unit)
  | 0, _ => none
  | fuel+1, st =>
    if fixMathClippingDetect sim st then
      let ins := fixMathClippingNextScale (getVerticalScaleSim st)
      if acceptsKwargs setMathScaleParams fixMathClippingCallKwargs then
        fixMathClippingGo sim fuel (sim.quantize ins)
      else some (Except.error (PyErr.typeError
        ("setMathScale got an unexpected keyword argument div")))
    else some (Except.ok ())

/-- Embedding of `fixMathClipping` (RTM3004.py lines 292-310): the
initial `setMathScale(index=channel, scale=scale)` call (line 303) binds
correctly, after which the correction loop runs.  `none` means the loop
had not terminated within `fuel` iterations. -/
def fixMathClipping (sim : ScopeSim) (fuel : ℕ) (scale : ℚ) : Option (Except PyErr Unit) :=
  fixMathClippingGo sim fuel (sim.quantize scale)

end RTM3004

namespace RTM3004

/-- C1: for every transport state and measurement-slot index,
`checkClipping` is true exactly when the raw measurement-result text is
the overflow sentinel; any other response text gives false. -/
theorem checkClipping_iff_sentinel (t : Transport) (index : ℕ) :
    checkClipping t index = true ↔ getMeasurementResult t index = overflowSentinel := by
  simp [checkClipping]

/-- C6 counterexample: a transport that yields an empty response.  The
source `ask` returns the empty (structurally malformed) reply to the
caller as an ordinary value; no protocol-error failure path exists in
the code, contradicting the claim that a non-conforming reply is never
returned to the caller. -/
def emptyTransport : Transport :=
  ⟨fun _ => ""⟩

/-- C6 counterexample theorem: querying through the empty transport
returns the empty string to the caller as if it were a valid result. -/
theorem ask_returns_empty_counterexample :
    ask emptyTransport ("*IDN?") = "" := rfl

/-- C6 amended: `ask` propagates the raw transport response to the
caller verbatim, performing no validation at all; empty or malformed
replies are returned unchanged (any failure can only come from the
transport layer itself, not from a driver-level protocol check). -/
theorem ask_verbatim (t : Transport) (message : String) :
    ask t message = t.query message := rfl

/-- Helper for C5: appending the line terminator is cancellable, so a
delivered reply equals the completion token exactly when the instrument
reported the single character one. -/
lemma append_newline_eq_token_iff (a : String) :
    a ++ "\n" = "1\n" ↔ a = "1" := by
  constructor
  · intro h
    have h2 : a.data ++ ['\n'] = ['1'] ++ ['\n'] := by
      simpa [String.data_append] using congrArg String.data h
    have h4 : a.data = ['1'] := List.append_cancel_right h2
    cases a
    simp_all
  · rintro rfl
    rfl

/-- Helper for C5: full characterisation of the polling loop on raw
delivered responses, starting at an arbitrary attempt index. -/
lemma wait_some_iff (d : ℕ → String) :
    ∀ (fuel k0 k : ℕ), wait d fuel k0 = some k ↔
      (k0 ≤ k ∧ k < k0 + fuel ∧ d k = "1\n" ∧
        ∀ j, k0 ≤ j → j < k → d j ≠ "1\n") := by
  intro fuel
  induction fuel with
  | zero =>
    intro k0 k
    constructor
    · intro h
      exact absurd h (by simp [wait])
    · rintro ⟨h1, h2, -, -⟩
      omega
  | succ f ih =>
    intro k0 k
    show (if d k0 == "1\n" then some k0 else wait d f (k0+1)) = some k ↔ _
    by_cases hd : d k0 = "1\n"
    · simp only [hd, if_pos (beq_self_eq_true _)]
      constructor
      · intro h
        have hk : k = k0 := by
          have := Option.some.inj h
          omega
        subst hk
        exact ⟨le_refl k, by omega, hd, fun j hj1 hj2 => by omega⟩
      · rintro ⟨h1, h2, h3, h4⟩
        have hk : k = k0 := by
          by_contra hne
          exact h4 k0 (le_refl k0) (by omega) hd
        subst hk
        rfl
    · have hbeq : (d k0 == "1\n") = false := by
        simpa using hd
      simp only [hbeq, Bool.false_eq_true, if_false]
      rw [ih (k0+1) k]
      constructor
      · rintro ⟨h1, h2, h3, h4⟩
        refine ⟨by omega, by omega, h3, fun j hj1 hj2 => ?_⟩
        by_cases hj : j = k0
        · subst hj
          exact hd
        · exact h4 j (by omega) hj2
      · rintro ⟨h1, h2, h3, h4⟩
        have hk : k ≠ k0 := by
          intro hk
          subst hk
          exact hd h3
        exact ⟨by omega, by omega, h3, fun j hj1 hj2 => h4 j (by omega) hj2⟩

/-- C5: over any stream of instrument replies (delivered through the
line-terminating transport), the completion-wait loop returns exactly at
the first attempt on which the instrument reports the single-character
completion token, and keeps polling through every attempt on which the
reply is anything else.  The fuel bound only expresses that the source
loop, which has none, is embedded with an iteration budget. -/
theorem wait_stops_iff_opc_one (resp : ℕ → String) (fuel k : ℕ) :
    wait (delivered resp) fuel 0 = some k ↔
      (k < fuel ∧ resp k = "1" ∧ ∀ j, j < k → resp j ≠ "1") := by
  rw [wait_some_iff (delivered resp) fuel 0 k]
  have hd : ∀ j, delivered resp j = "1\n" ↔ resp j = "1" := by
    intro j
    exact append_newline_eq_token_iff (resp j)
  constructor
  · rintro ⟨-, h2, h3, h4⟩
    exact ⟨by omega, (hd k).mp h3, fun j hj hj1 => (hd j).not.mp (h4 j (by omega) hj) hj1⟩
  · rintro ⟨h1, h2, h3⟩
    exact ⟨Nat.zero_le k, by omega, (hd k).mpr h2,
      fun j hj1 hj2 => (hd j).not.mpr (h3 j hj2)⟩

/-- C10: the wire traffic issued by the constructor consists of exactly
one operation, the reset write, so `*RST` is the first write issued
after the session is opened and no other command or query precedes or
accompanies it during construction. -/
theorem init_first_wire_write_is_reset :
    initOps.filter isWireCmd = [Op.wireWrite ("*RST")] ∧
      initOps.getLast? = some (Op.wireWrite ("*RST")) := by
  constructor <;> rfl

/-- C9: if clipping is not detected at the first check after the
starting scale has been applied, `fixClipping` returns the
caller-supplied commanded starting scale itself: the loop body, and with
it the read-back of the possibly quantized actual scale, is never
executed, and `inscale` still holds the commanded value. -/
theorem fixClipping_no_clip_returns_commanded (sim : ScopeSim) (fuel : ℕ) (scale : ℚ)
    (hf : 0 < fuel) (hnc : sim.clips (sim.quantize scale) = false) :
    fixClipping sim fuel scale = some scale := by
  obtain ⟨f, rfl⟩ : ∃ f, fuel = f + 1 := ⟨fuel - 1, by omega⟩
  show fixClippingGo sim (f+1) (setVerticalScaleSim sim scale) scale = some scale
  simp [fixClippingGo, fixClippingDetect, checkClippingSim, setVerticalScaleSim, hnc]

/-- Instrument model that never clips and doubles every commanded scale,
exhibiting that the returned value is the commanded and not the applied
scale. -/
def doubleSim : ScopeSim :=
  ⟨fun x => 2 * x, fun _ => false⟩

/-- C9 witness: on a never-clipping instrument that coerces the
commanded scale 3 to the applied scale 6, `fixClipping` still returns
the commanded 3. -/
theorem fixClipping_no_clip_returns_commanded_witness :
    fixClipping doubleSim 1 3 = some 3 ∧ doubleSim.quantize 3 = 6 :=
  ⟨fixClipping_no_clip_returns_commanded doubleSim 1 3 (by norm_num) rfl,
    by norm_num [doubleSim]⟩

/-- C7: whenever `fixMathClipping` detects clipping and attempts its
corrective step, the keyword call applying the new math scale does not
bind (the name div is not a parameter of `setMathScale`) and raises a
TypeError, so no corrective iteration ever completes. -/
theorem fixMathClipping_typeError_on_clip (sim : ScopeSim) (fuel : ℕ) (scale : ℚ)
    (hf : 0 < fuel) (hc : sim.clips (sim.quantize scale) = true) :
    acceptsKwargs setMathScaleParams fixMathClippingCallKwargs = false ∧
    fixMathClipping sim fuel scale =
      some (Except.error (PyErr.typeError
        ("setMathScale got an unexpected keyword argument div"))) := by
  refine ⟨rfl, ?_⟩
  obtain ⟨f, rfl⟩ : ∃ f, fuel = f + 1 := ⟨fuel - 1, by omega⟩
  show fixMathClippingGo sim (f+1) (sim.quantize scale) = _
  simp [fixMathClippingGo, fixMathClippingDetect, checkClippingSim, hc,
    acceptsKwargs, setMathScaleParams, fixMathClippingCallKwargs]

/-- Instrument model that applies every commanded scale exactly and
always reports a clipping measurement. -/
def alwaysClipSim : ScopeSim :=
  ⟨fun x => x, fun _ => true⟩

/-- C7 witness: on an always-clipping instrument the very first
corrective step of `fixMathClipping` raises the TypeError. -/
theorem fixMathClipping_typeError_on_clip_witness :
    acceptsKwargs setMathScaleParams fixMathClippingCallKwargs = false ∧
    fixMathClipping alwaysClipSim 1 1 =
      some (Except.error (PyErr.typeError
        ("setMathScale got an unexpected keyword argument div"))) :=
  fixMathClipping_typeError_on_clip alwaysClipSim 1 1 (by norm_num) rfl

/-- C8: normal completion of `fixMathClipping` carries no scale value
(the Python function body has no return statement, so the caller gets
None), while `fixClipping` returns the final scale; the guard and the
scale-update computation of the two variants are identical functions.
The no-clipping hypothesis pins down concrete terminating runs of both
variants on the same instrument. -/
theorem fixMathClipping_returns_none_fixClipping_returns_scale
    (sim : ScopeSim) (fuel : ℕ) (scale : ℚ) (hf : 0 < fuel)
    (hnc : sim.clips (sim.quantize scale) = false) :
    fixMathClipping sim fuel scale = some (Except.ok ()) ∧
    fixClipping sim fuel scale = some scale ∧
    fixMathClippingDetect = fixClippingDetect ∧
    fixMathClippingNextScale = fixClippingNextScale := by
  obtain ⟨f, rfl⟩ : ∃ f, fuel = f + 1 := ⟨fuel - 1, by omega⟩
  refine ⟨?_, ?_, rfl, rfl⟩
  · show fixMathClippingGo sim (f+1) (sim.quantize scale) = _
    simp [fixMathClippingGo, fixMathClippingDetect, checkClippingSim, hnc]
  · show fixClippingGo sim (f+1) (setVerticalScaleSim sim scale) scale = _
    simp [fixClippingGo, fixClippingDetect, checkClippingSim, setVerticalScaleSim, hnc]

/-- Instrument model that applies every commanded scale exactly and
never clips. -/
def noClipSim : ScopeSim :=
  ⟨fun x => x, fun _ => false⟩

/-- Unfolding of the commanded-scale trace on a clipping iteration. -/
lemma commandedTraceGo_succ_pos (sim : ScopeSim) (f : ℕ) (st : ℚ)
    (hd : fixClippingDetect sim st = true) :
    commandedTraceGo sim (f+1) st =
      fixClippingNextScale (getVerticalScaleSim st) ::
        commandedTraceGo sim f
          (setVerticalScaleSim sim (fixClippingNextScale (getVerticalScaleSim st))) := by
  simp [commandedTraceGo, hd]

/-- Unfolding of the commanded-scale trace on a non-clipping check. -/
lemma commandedTraceGo_succ_neg (sim : ScopeSim) (f : ℕ) (st : ℚ)
    (hd : fixClippingDetect sim st = false) :
    commandedTraceGo sim (f+1) st = [] := by
  simp [commandedTraceGo, hd]

/-- Unfolding of the applied-scale trace on a clipping iteration. -/
lemma appliedTraceGo_succ_pos (sim : ScopeSim) (f : ℕ) (st : ℚ)
    (hd : fixClippingDetect sim st = true) :
    appliedTraceGo sim (f+1) st =
      setVerticalScaleSim sim (fixClippingNextScale (getVerticalScaleSim st)) ::
        appliedTraceGo sim f
          (setVerticalScaleSim sim (fixClippingNextScale (getVerticalScaleSim st))) := by
  simp [appliedTraceGo, hd]

/-- Unfolding of the applied-scale trace on a non-clipping check. -/
lemma appliedTraceGo_succ_neg (sim : ScopeSim) (f : ℕ) (st : ℚ)
    (hd : fixClippingDetect sim st = false) :
    appliedTraceGo sim (f+1) st = [] := by
  simp [appliedTraceGo, hd]

/-- Helper for C2: within the loop, the commanded and applied traces
have the same length. -/
lemma traceGo_length_eq (sim : ScopeSim) :
    ∀ (f : ℕ) (st : ℚ),
      (commandedTraceGo sim f st).length = (appliedTraceGo sim f st).length := by
  intro f
  induction f with
  | zero => intro st; rfl
  | succ f ih =>
    intro st
    cases hd : fixClippingDetect sim st with
    | false =>
      rw [commandedTraceGo_succ_neg sim f st hd, appliedTraceGo_succ_neg sim f st hd]
    | true =>
      rw [commandedTraceGo_succ_pos sim f st hd, appliedTraceGo_succ_pos sim f st hd]
      simp [ih]

/-- Helper for C2: every entry of the in-loop commanded trace is the
growth factor applied to the scale read back at the applied state the
iteration started from, and that state was a clipping one. -/
lemma commandedTraceGo_elem (sim : ScopeSim) :
    ∀ (f : ℕ) (st : ℚ) (k : ℕ) (c : ℚ),
      (commandedTraceGo sim f st)[k]? = some c →
      ∃ a, (st :: appliedTraceGo sim f st)[k]? = some a ∧
        c = fixClippingNextScale (getVerticalScaleSim a) ∧
        checkClippingSim sim a = true := by
  intro f
  induction f with
  | zero =>
    intro st k c h
    simp [commandedTraceGo] at h
  | succ f ih =>
    intro st k c h
    cases hd : fixClippingDetect sim st with
    | false =>
      rw [commandedTraceGo_succ_neg sim f st hd] at h
      simp at h
    | true =>
      rw [commandedTraceGo_succ_pos sim f st hd] at h
      cases k with
      | zero =>
        refine ⟨st, by simp, ?_, hd⟩
        simpa using h.symm
      | succ k =>
        rw [List.getElem?_cons_succ] at h
        obtain ⟨a, ha, hc2, hcl⟩ := ih _ k c h
        refine ⟨a, ?_, hc2, hcl⟩
        rw [appliedTraceGo_succ_pos sim f st hd]
        simpa using ha

/-- C2: in every loop iteration of `fixClipping` in which clipping was
detected, the scale commanded next is the growth factor times the scale
just read back from the instrument (the applied, instrument-reported
value of the previous step), and the two traces are index-aligned: the
(k+1)-th commanded value corresponds to the k-th applied value, not to
the k-th commanded one. -/
theorem fixClipping_commanded_eq_growth_of_readback (sim : ScopeSim)
    (fuel : ℕ) (scale : ℚ) (k : ℕ) (c a : ℚ)
    (hc : (commandedTrace sim fuel scale)[k+1]? = some c)
    (ha : (appliedTrace sim fuel scale)[k]? = some a) :
    (commandedTrace sim fuel scale).length = (appliedTrace sim fuel scale).length ∧
    c = fixClippingNextScale (getVerticalScaleSim a) ∧
    checkClippingSim sim a = true := by
  refine ⟨?_, ?_⟩
  · simp [commandedTrace, appliedTrace, traceGo_length_eq]
  · have h2 : (commandedTraceGo sim fuel (setVerticalScaleSim sim scale))[k]? = some c := by
      simpa [commandedTrace] using hc
    obtain ⟨b, hb, hc2, hcl⟩ := commandedTraceGo_elem sim fuel (setVerticalScaleSim sim scale) k c h2
    have hba : b = a := by
      have ha2 : (setVerticalScaleSim sim scale :: appliedTraceGo sim fuel
          (setVerticalScaleSim sim scale))[k]? = some a := by
        simpa [appliedTrace] using ha
      rw [ha2] at hb
      exact (Option.some.inj hb).symm
    rw [hba] at hc2 hcl
    exact ⟨hc2, hcl⟩

/-- Clipping law of a threshold instrument: the measurement saturates
exactly while the applied scale is below the threshold. -/
def clipsBelow (T : ℚ) : ℚ → Bool :=
  fun st => decide (st < T)

/-- Termination of a `fixClipping` run: some iteration budget suffices
for the loop to exit and return a value. -/
def FixClippingTerminates (sim : ScopeSim) (scale : ℚ) : Prop :=
  ∃ fuel r, fixClipping sim fuel scale = some r

/-- Convergence of a `fixClipping` run to at least a target scale. -/
def FixClippingConvergesAbove (sim : ScopeSim) (scale T : ℚ) : Prop :=
  ∃ fuel r, fixClipping sim fuel scale = some r ∧ T ≤ r

/-- Monotone non-decreasing scale sequence. -/
def ScaleMono (l : List ℚ) : Prop :=
  l.Chain' (· ≤ ·)

/-- Instrument model that coerces every commanded scale to the single
supported value 1 and clips below 2, separating commanded from read-back
values. -/
def constOneSim : ScopeSim :=
  ⟨fun _ => 1, fun st => decide (st < 2)⟩

/-- C2 witness: starting at commanded scale one half, the instrument
applies 1, and the next commanded value is the growth factor applied to
the read-back 1 (giving five quarters), not to the previously commanded
one half. -/
theorem fixClipping_commanded_eq_growth_of_readback_witness :
    (commandedTrace constOneSim 1 (1/2)).length = (appliedTrace constOneSim 1 (1/2)).length ∧
    (5/4 : ℚ) = fixClippingNextScale (getVerticalScaleSim 1) ∧
    checkClippingSim constOneSim 1 = true :=
  fixClipping_commanded_eq_growth_of_readback constOneSim 1 (1/2) 0 (5/4) 1
    (by norm_num [commandedTrace, commandedTraceGo, fixClippingDetect, checkClippingSim,
      constOneSim, setVerticalScaleSim, getVerticalScaleSim, fixClippingNextScale])
    (by norm_num [appliedTrace, setVerticalScaleSim, constOneSim])

/-- Instrument model whose only supported scale steps are the values up
to one half (commanded values are clamped down to one half, the nearest
supported step), with clipping resolving only at scale at least one.
The signal is too large for any supported step, so the loop can never
make progress. -/
def stallSim : ScopeSim :=
  ⟨fun x => min x (1/2), clipsBelow 1⟩

/-- Helper for the C3 counterexample: from the applied scale one half
the stalled loop body reproduces the applied scale one half, so the
loop never exits at any fuel. -/
lemma stallSim_go_none : ∀ (fuel : ℕ) (ins : ℚ),
    fixClippingGo stallSim fuel (1/2) ins = none := by
  intro fuel
  induction fuel with
  | zero => intro ins; rfl
  | succ f ih =>
    intro ins
    have hd : fixClippingDetect stallSim (1/2) = true := by
      simp only [fixClippingDetect, checkClippingSim, stallSim, clipsBelow]
      norm_num
    have hq : setVerticalScaleSim stallSim
        (fixClippingNextScale (getVerticalScaleSim (1/2))) = 1/2 := by
      simp only [setVerticalScaleSim, stallSim, fixClippingNextScale, getVerticalScaleSim]
      norm_num
    simp only [fixClippingGo, hd, if_true, hq]
    exact ih _

/-- C3 counterexample: `stallSim` is an instrument on which clipping
resolves exactly once the applied scale reaches the threshold one, and
one half is a starting scale below the threshold, yet the correction
loop run from it never terminates: the commanded growth is always
coerced back to the supported step one half.  The universally
quantified convergence claim therefore fails already for this
quantizing instrument. -/
theorem fixClipping_stall_counterexample :
    stallSim.clips = clipsBelow 1 ∧ ((1/2 : ℚ) < 1) ∧
      ¬ FixClippingTerminates stallSim (1/2) := by
  refine ⟨rfl, by norm_num, ?_⟩
  rintro ⟨fuel, r, h⟩
  have h0 : setVerticalScaleSim stallSim (1/2) = 1/2 := by
    simp only [setVerticalScaleSim, stallSim]
    norm_num
  simp only [fixClipping, h0, stallSim_go_none fuel (1/2)] at h
  exact Option.noConfusion h

/-- Helper for the amended C3: on an instrument that applies commanded
scales exactly and clips exactly below the threshold, if the growth
factor can reach the threshold from the current state within `k` more
steps, the loop terminates with a value at least the threshold. -/
lemma fixClippingGo_exact (sim : ScopeSim) (T : ℚ)
    (hq : sim.quantize = id) (hc : sim.clips = clipsBelow T) :
    ∀ (k : ℕ) (st : ℚ), 0 < st → T ≤ (1.25 : ℚ) ^ k * st →
      ∃ r, fixClippingGo sim (k+1) st st = some r ∧ T ≤ r := by
  intro k
  induction k with
  | zero =>
    intro st hpos hT
    rw [pow_zero, one_mul] at hT
    have hd : fixClippingDetect sim st = false := by
      simp only [fixClippingDetect, checkClippingSim, hc, clipsBelow,
        decide_eq_false_iff_not, not_lt]
      exact hT
    refine ⟨st, ?_, hT⟩
    simp [fixClippingGo, hd]
  | succ k ih =>
    intro st hpos hT
    by_cases hlt : st < T
    · have hd : fixClippingDetect sim st = true := by
        simp only [fixClippingDetect, checkClippingSim, hc, clipsBelow,
          decide_eq_true_eq]
        exact hlt
      have hstep : setVerticalScaleSim sim (fixClippingNextScale (getVerticalScaleSim st)) =
          (1.25 : ℚ) * st := by
        simp [setVerticalScaleSim, hq, fixClippingNextScale, getVerticalScaleSim]
      have hpos2 : 0 < (1.25 : ℚ) * st := by
        have h125 : (0 : ℚ) < 1.25 := by norm_num
        exact mul_pos h125 hpos
      have hT2 : T ≤ (1.25 : ℚ) ^ k * ((1.25 : ℚ) * st) := by
        calc T ≤ (1.25 : ℚ) ^ (k+1) * st := hT
        _ = (1.25 : ℚ) ^ k * ((1.25 : ℚ) * st) := by ring
      obtain ⟨r, hr, hrT⟩ := ih ((1.25 : ℚ) * st) hpos2 hT2
      refine ⟨r, ?_, hrT⟩
      simp only [fixClippingGo, hd, if_true, hstep]
      exact hr
    · have hd : fixClippingDetect sim st = false := by
        simp only [fixClippingDetect, checkClippingSim, hc, clipsBelow,
          decide_eq_false_iff_not]
        exact hlt
      refine ⟨st, ?_, not_lt.mp hlt⟩
      simp [fixClippingGo, hd]

/-- C3 amended: on a simulated instrument that applies every commanded
scale exactly (no quantization) and on which clipping resolves exactly
once the applied scale reaches the threshold, `fixClipping` run from any
positive starting scale below the threshold terminates and returns a
scale at least the threshold.  (The original claim over arbitrary
quantizing instruments is refuted by `fixClipping_stall_counterexample`;
exactness of the scale application is the restriction that counterexample
forces.) -/
theorem fixClipping_converges_exact (sim : ScopeSim) (T s0 : ℚ)
    (hq : sim.quantize = id) (hc : sim.clips = clipsBelow T)
    (h0 : 0 < s0) (_hsT : s0 < T) :
    FixClippingConvergesAbove sim s0 T := by
  obtain ⟨k, hk⟩ := pow_unbounded_of_one_lt (T / s0) (by norm_num : (1 : ℚ) < 1.25)
  have hT : T ≤ (1.25 : ℚ) ^ k * s0 := by
    rw [div_lt_iff₀ h0] at hk
    linarith
  obtain ⟨r, hr, hrT⟩ := fixClippingGo_exact sim T hq hc k s0 h0 hT
  refine ⟨k+1, r, ?_, hrT⟩
  have h0q : setVerticalScaleSim sim s0 = s0 := by
    simp [setVerticalScaleSim, hq]
  simp only [fixClipping, h0q]
  exact hr

/-- Instrument model that applies commanded scales exactly and clips
below the threshold one. -/
def idealSim : ScopeSim :=
  ⟨id, clipsBelow 1⟩

/-- C3 amended witness: on the exact instrument with threshold one, the
run from starting scale one half terminates with a returned scale at
least one. -/
theorem fixClipping_converges_exact_witness :
    FixClippingConvergesAbove idealSim (1/2) 1 :=
  fixClipping_converges_exact idealSim 1 (1/2) rfl rfl (by norm_num) (by norm_num)

/-- Nearest-step quantization onto a set of supported scale values: for
every positive commanded value the applied value is a supported one at
minimal distance from the commanded one. -/
def NearestQuantizer (sim : ScopeSim) (S : Set ℚ) : Prop :=
  ∀ x : ℚ, 0 < x → sim.quantize x ∈ S ∧ ∀ y ∈ S, |x - sim.quantize x| ≤ |x - y|

/-- Instrument model that coerces any commanded value above one down to
one tenth: a non-nearest coercion under which the applied scale
decreases across an iteration. -/
def dropSim : ScopeSim :=
  ⟨fun x => if x ≤ 1 then x else 1/10, clipsBelow 5⟩

/-- C4 counterexample: on the instrument model `dropSim` the applied
vertical-scale sequence of a `fixClipping` run is 1 followed by 1/10,
which is decreasing, so the sequence is not monotonically non-decreasing
for every instrument model. -/
theorem appliedTrace_decrease_counterexample :
    appliedTrace dropSim 1 1 = [1, 1/10] ∧ ¬ ScaleMono (appliedTrace dropSim 1 1) := by
  have ht : appliedTrace dropSim 1 1 = [1, 1/10] := by
    norm_num [appliedTrace, appliedTraceGo, fixClippingDetect, checkClippingSim, dropSim,
      setVerticalScaleSim, getVerticalScaleSim, fixClippingNextScale, clipsBelow]
  refine ⟨ht, ?_⟩
  show ¬ (appliedTrace dropSim 1 1).Chain' (· ≤ ·)
  rw [ht]
  simp only [List.chain'_cons, List.chain'_singleton, and_true]
  norm_num

/-- Helper for the amended C4: starting from a supported applied scale,
every later applied scale of the loop is at least the previous one,
because the commanded value is one quarter above the current supported
value and nearest-step quantization cannot fall below it. -/
lemma appliedTraceGo_chain (sim : ScopeSim) (S : Set ℚ)
    (hnear : NearestQuantizer sim S) (hpos : ∀ y ∈ S, 0 < y) :
    ∀ (fuel : ℕ) (st : ℚ), st ∈ S →
      (st :: appliedTraceGo sim fuel st).Chain' (· ≤ ·) := by
  intro fuel
  induction fuel with
  | zero =>
    intro st hst
    simp [appliedTraceGo]
  | succ f ih =>
    intro st hst
    cases hd : fixClippingDetect sim st with
    | false =>
      rw [appliedTraceGo_succ_neg sim f st hd]
      simp
    | true =>
      rw [appliedTraceGo_succ_pos sim f st hd]
      simp only [setVerticalScaleSim, fixClippingNextScale, getVerticalScaleSim]
      have hstpos : 0 < st := hpos st hst
      have hx : 0 < (1.25 : ℚ) * st := by
        have h125 : (0 : ℚ) < 1.25 := by norm_num
        exact mul_pos h125 hstpos
      obtain ⟨hmem, hdist⟩ := hnear ((1.25 : ℚ) * st) hx
      have hle : st ≤ sim.quantize ((1.25 : ℚ) * st) := by
        have h1 := hdist st hst
        have h2 : |(1.25 : ℚ) * st - st| = (1/4 : ℚ) * st := by
          rw [abs_of_nonneg (by linarith)]
          ring
        rw [h2] at h1
        have h3 : (1.25 : ℚ) * st - sim.quantize ((1.25 : ℚ) * st) ≤ (1/4 : ℚ) * st :=
          le_trans (le_abs_self _) h1
        linarith
      rw [List.chain'_cons]
      exact ⟨hle, ih (sim.quantize ((1.25 : ℚ) * st)) hmem⟩

/-- C4 amended: for every instrument model whose scale coercion is a
nearest-step quantization onto a set of positive supported values (the
snapping behaviour the data-model section ascribes to the hardware), the
sequence of vertical-scale values applied to the channel during one
`fixClipping` run is monotonically non-decreasing.  (The claim over
arbitrary instrument models is refuted by
`appliedTrace_decrease_counterexample`; restricting the coercion to
nearest-step quantizers is what that counterexample forces.) -/
theorem appliedTrace_monotone_nearest (sim : ScopeSim) (S : Set ℚ)
    (fuel : ℕ) (scale : ℚ) (hnear : NearestQuantizer sim S)
    (hpos : ∀ y ∈ S, 0 < y) (hscale : 0 < scale) :
    ScaleMono (appliedTrace sim fuel scale) := by
  have hmem : sim.quantize scale ∈ S := (hnear scale hscale).1
  show (setVerticalScaleSim sim scale ::
    appliedTraceGo sim fuel (setVerticalScaleSim sim scale)).Chain' (· ≤ ·)
  exact appliedTraceGo_chain sim S hnear hpos fuel (sim.quantize scale) hmem

/-- C4 amended witness: the exact instrument is the nearest-step
quantizer onto the set of all positive rationals, and a concrete run on
it has a monotone applied trace. -/
theorem appliedTrace_monotone_nearest_witness :
    ScaleMono (appliedTrace idealSim 3 (1/2)) :=
  appliedTrace_monotone_nearest idealSim (fun y : ℚ => 0 < y) 3 (1/2)
    (fun x hx => ⟨hx, fun y hy => by simp [idealSim]⟩)
    (fun y hy => hy) (by norm_num)

/-- C8 witness: concrete terminating runs of the two variants on the
same never-clipping instrument. -/
theorem fixMathClipping_returns_none_fixClipping_returns_scale_witness :
    fixMathClipping noClipSim 1 3 = some (Except.ok ()) ∧
    fixClipping noClipSim 1 3 = some 3 ∧
    fixMathClippingDetect = fixClippingDetect ∧
    fixMathClippingNextScale = fixClippingNextScale :=
  fixMathClipping_returns_none_fixClipping_returns_scale noClipSim 1 3 (by norm_num) rfl

end RTM3004
